import Mathlib

/-!
Verification of the Coven loan-covenant tracker.

The data model follows types.ts; the operations follow the handlers in
App.tsx (covenant status update, extraction application), the view helpers
(DashboardView aggregate, LoanDetailView CSV generator), the API service
(fetchWithAuth, refreshAccessToken, checkBackendHealth) and the fallback
AI service (generateRiskPredictions).

JavaScript strings are modelled as Lean String, optional fields as Option,
enum values by inductive types together with the string each enum member
carries in the source.  Numbers used only for display (amount, interest
rate) are modelled as Nat.  Math.round on a nonnegative quotient a/b is
floor (a/b + 1/2), embedded on naturals as (2*a + b) / (2*b).
-/

namespace Coven

/-- LoanStatus enum from types.ts. -/
inductive LoanStatus
  | Active
  | Pending
  | Closed
deriving DecidableEq, Repr

/-- String value of a LoanStatus enum member (types.ts). -/
def LoanStatus.str : LoanStatus → String
  | .Active => "Active"
  | .Pending => "Pending"
  | .Closed => "Closed"

/-- ComplianceStatus enum from types.ts. -/
inductive ComplianceStatus
  | Compliant
  | AtRisk
  | Breached
  | Upcoming
  | Waived
deriving DecidableEq, Repr

/-- String value of a ComplianceStatus enum member (types.ts). -/
def ComplianceStatus.str : ComplianceStatus → String
  | .Compliant => "Compliant"
  | .AtRisk => "At Risk"
  | .Breached => "Breached"
  | .Upcoming => "Upcoming"
  | .Waived => "Waived"

/-- TimelineEventType enum from types.ts. -/
inductive TimelineEventType
  | LoanCreated
  | CovenantAdded
  | StatusChanged
  | WaiverGranted
  | PaymentReceived
  | DocumentUploaded
  | RiskAlert
  | AmendmentMade
deriving DecidableEq, Repr

/-- Covenant type union from types.ts. -/
inductive CovenantType
  | Financial
  | Reporting
  | Affirmative
  | Negative
deriving DecidableEq, Repr

/-- String value of a covenant type (types.ts union of literals). -/
def CovenantType.str : CovenantType → String
  | .Financial => "Financial"
  | .Reporting => "Reporting"
  | .Affirmative => "Affirmative"
  | .Negative => "Negative"

/-- Risk trend union from types.ts. -/
inductive Trend
  | improving
  | stable
  | deteriorating
deriving DecidableEq, Repr

/-- TimelineEvent interface from types.ts. -/
structure TimelineEvent where
  id : String
  type : TimelineEventType
  date : String
  title : String
  description : String
  relatedCovenantId : Option String := none
deriving DecidableEq, Repr

/-- Covenant interface from types.ts. -/
structure Covenant where
  id : String
  title : String
  type : CovenantType
  dueDate : String
  status : ComplianceStatus
  value : Option String := none
  threshold : Option String := none
  description : String
  waiverReason : Option String := none
  waiverDate : Option String := none
  waiverApprovedBy : Option String := none
  frequency : Option String := none
deriving DecidableEq, Repr

/-- RiskPrediction interface from types.ts. -/
structure RiskPrediction where
  covenantId : String
  covenantTitle : String
  currentValue : String
  threshold : String
  predictedBreachDate : String
  probability : Nat
  trend : Trend
  explanation : String
deriving DecidableEq, Repr

/-- keyTerms record nested in LoanDNA (types.ts). -/
structure KeyTerms where
  facilityType : String
  purpose : String
  securityType : String
  governingLaw : String
deriving DecidableEq, Repr

/-- One element of LoanDNA.extractedCovenants (types.ts). -/
structure ExtractedCovenant where
  title : String
  type : CovenantType
  threshold : String
  frequency : String
  description : String
deriving DecidableEq, Repr

/-- LoanDNA interface from types.ts. -/
structure LoanDNA where
  extractedAt : String
  sourceDocument : String
  confidence : Nat
  keyTerms : KeyTerms
  extractedCovenants : List ExtractedCovenant
  riskFactors : List String
  summary : String
deriving DecidableEq, Repr

/-- Loan interface from types.ts. -/
structure Loan where
  id : String
  borrower : String
  amount : Nat
  currency : String
  interestRate : Nat
  startDate : String
  maturityDate : String
  status : LoanStatus
  complianceScore : Nat
  covenants : List Covenant
  riskSummary : Option String := none
  timelineEvents : List TimelineEvent
  loanDNA : Option LoanDNA := none
  riskPredictions : List RiskPrediction := []
  uploadedDocuments : List String := []
deriving DecidableEq, Repr

/-- JavaScript string truthiness for an optional string field:
undefined and the empty string are falsy. -/
def truthy : Option String → Bool
  | none => false
  | some s => s ≠ ""

/-- Math.round (a / b) for naturals with b > 0: floor (a / b + 1/2),
computed without leaving the naturals as (2*a + b) / (2*b). -/
def jsRoundDiv (a b : Nat) : Nat := (2 * a + b) / (2 * b)

/-- A covenant counts toward the compliance score when its status is
Compliant, Waived or Upcoming (handleUpdateCovenantStatus, App.tsx). -/
def compliantEquivalent (c : Covenant) : Bool :=
  c.status = ComplianceStatus.Compliant ||
  c.status = ComplianceStatus.Waived ||
  c.status = ComplianceStatus.Upcoming

/-- Compliance-score recomputation from handleUpdateCovenantStatus
(App.tsx): Math.round((compliantCount / totalCovenants) * 100) when the
loan has covenants, 100 otherwise. -/
def recomputeComplianceScore (covs : List Covenant) : Nat :=
  let totalCovenants := covs.length
  let compliantCount := (covs.filter compliantEquivalent).length
  if totalCovenants > 0 then jsRoundDiv (compliantCount * 100) totalCovenants else 100

/-- The single-covenant part of handleUpdateCovenantStatus (App.tsx):
set the status, set the value when the form provided a non-empty current
value (currentValue || cov.value), and when the new status is Waived set
the three waiver fields (waiverDate = now, waiverApprovedBy the literal
string written in the handler), otherwise clear all three.  `actingUser`
records the display name of the signed-in user (App.currentUser); the
handler never reads it and always writes the constant "Admin User". -/
def updateOneCovenant (cov : Covenant) (newStatus : ComplianceStatus)
    (currentValue waiverReason now actingUser : String) : Covenant :=
  let updated := { cov with
    status := newStatus,
    value := if currentValue ≠ "" then some currentValue else cov.value }
  if newStatus = ComplianceStatus.Waived then
    { updated with
      waiverReason := some waiverReason,
      waiverDate := some now,
      waiverApprovedBy := some "Admin User" }
  else
    { updated with
      waiverReason := none,
      waiverDate := none,
      waiverApprovedBy := none }

/-- Timeline events emitted by handleUpdateCovenantStatus (App.tsx):
nothing when the status did not change; one Waiver Granted event when the
new status is Waived; otherwise one Status Changed event whose description
embeds the old status, the new status and, when provided, the current
value. -/
def statusChangeEvents (target : Covenant) (oldStatus newStatus : ComplianceStatus)
    (currentValue waiverReason now evtId : String) : List TimelineEvent :=
  if oldStatus ≠ newStatus then
    if newStatus = ComplianceStatus.Waived then
      [{ id := evtId,
         type := TimelineEventType.WaiverGranted,
         date := now,
         title := "Waiver Granted",
         description := "Waiver granted for \"" ++ target.title ++ "\" covenant. Reason: " ++
           (if waiverReason ≠ "" then waiverReason else "Not specified") ++
           ". Approved by Admin User.",
         relatedCovenantId := some target.id }]
    else
      [{ id := evtId,
         type := TimelineEventType.StatusChanged,
         date := now,
         title := target.title ++ " Status Changed",
         description := "Covenant status changed from " ++ oldStatus.str ++ " to " ++
           newStatus.str ++ ". " ++
           (if currentValue ≠ "" then "Current value: " ++ currentValue ++ "." else ""),
         relatedCovenantId := some target.id }]
  else []

/-- handleUpdateCovenantStatus (App.tsx) as a pure state transition on one
loan: update the targeted covenant, append the emitted timeline events,
and recompute the compliance score over the updated covenant set.
`target` is the covenant snapshot held by the modal (editingCovenant);
its status is the old status the handler compares against. -/
def handleUpdateCovenantStatus (loan : Loan) (target : Covenant)
    (newStatus : ComplianceStatus)
    (currentValue waiverReason now evtId actingUser : String) : Loan :=
  let updatedCovenants := loan.covenants.map (fun cov =>
    if cov.id = target.id then
      updateOneCovenant cov newStatus currentValue waiverReason now actingUser
    else cov)
  let timelineEvents := loan.timelineEvents ++
    statusChangeEvents target target.status newStatus currentValue waiverReason now evtId
  { loan with
    covenants := updatedCovenants,
    complianceScore := recomputeComplianceScore updatedCovenants,
    timelineEvents := timelineEvents }

/-- Milliseconds per day, 24 * 60 * 60 * 1000 (App.tsx due-date offset). -/
def msPerDay : Nat := 86400000

/-- Digit characters of a natural number, most significant first, with
structural fuel so the definition unfolds by computation; `fuel` is
always at least the digit count when called from natStrData. -/
def natStrAux : Nat → Nat → List Char
  | 0, _ => []
  | fuel + 1, n =>
    if n < 10 then [Nat.digitChar n]
    else natStrAux fuel (n / 10) ++ [Nat.digitChar (n % 10)]

/-- Digits of a natural number, most significant first (the characters
the JavaScript template literal interpolation of a number produces). -/
def natStrData (n : Nat) : List Char := natStrAux (n + 1) n

/-- Decimal rendering of a natural number. -/
def natStr (n : Nat) : String := String.mk (natStrData n)

/-- Insert a thousands separator after every third character of a
reversed digit list. -/
def group3Rev : List Char → List Char
  | d1 :: d2 :: d3 :: d4 :: rest => d1 :: d2 :: d3 :: ',' :: group3Rev (d4 :: rest)
  | l => l

/-- Number.toLocaleString(): decimal digits grouped by three with comma
separators (LoanDetailView.tsx renders loan.amount this way). -/
def natLocaleStr (n : Nat) : String :=
  String.mk (group3Rev (natStrData n).reverse).reverse

/-- Civil date (year, month, day) of a day count since 1970-01-01,
following the standard era-based conversion used by Date.toISOString. -/
def civilFromDays (z0 : Nat) : Nat × Nat × Nat :=
  let z := z0 + 719468
  let era := z / 146097
  let doe := z % 146097
  let yoe := (doe - doe / 1460 + doe / 36524 - doe / 146096) / 365
  let y := yoe + era * 400
  let doy := doe - (365 * yoe + yoe / 4 - yoe / 100)
  let mp := (5 * doy + 2) / 153
  let d := doy - (153 * mp + 2) / 5 + 1
  let m := if mp < 10 then mp + 3 else mp - 9
  (if m ≤ 2 then y + 1 else y, m, d)

/-- Two-digit zero-padded rendering. -/
def pad2 (n : Nat) : String := if n < 10 then "0" ++ natStr n else natStr n

/-- new Date(ms).toISOString().split('T')[0]: the yyyy-mm-dd date string
of a millisecond timestamp. -/
def isoDateOfMs (ms : Nat) : String :=
  let ymd := civilFromDays (ms / msPerDay)
  natStr ymd.1 ++ "-" ++ pad2 ymd.2.1 ++ "-" ++ pad2 ymd.2.2

/-- Modelled from the spec: the REST backend that executes the covenant
and timeline-event create requests is not under src/; per the spec each
created covenant is appended to the loan (never replacing existing ones)
and each created event is appended to the loan's timeline.  The request
payloads themselves follow handleApplyExtractedData (App.tsx): every
proposed covenant is created with status Upcoming, a due date 90 days
after the operation time, and the extracted title, type, threshold,
frequency and description; the Loan DNA record is stored on the loan;
then a Document Uploaded event and a Covenant Added event are created, in
that order.  Backend-assigned identifiers are modelled as "". -/
def handleApplyExtractedData (loan : Loan) (dna : LoanDNA)
    (fileName : Option String) (now : String) (nowMs : Nat) : Loan :=
  let newCovenants := dna.extractedCovenants.map (fun ec =>
    { id := "",
      title := ec.title,
      type := ec.type,
      dueDate := isoDateOfMs (nowMs + 90 * msPerDay),
      status := ComplianceStatus.Upcoming,
      threshold := some ec.threshold,
      description := ec.description,
      frequency := some ec.frequency : Covenant })
  let docEvent : TimelineEvent :=
    { id := "",
      type := TimelineEventType.DocumentUploaded,
      date := now,
      title := "Document Uploaded & Processed",
      description := "\"" ++ fileName.getD "document.pdf" ++
        "\" uploaded and processed by AI. Extracted " ++
        natStr dna.extractedCovenants.length ++ " covenants with " ++
        natStr dna.confidence ++ "% confidence." }
  let covenantEvent : TimelineEvent :=
    { id := "",
      type := TimelineEventType.CovenantAdded,
      date := now,
      title := "Covenants Auto-Configured",
      description := natStr dna.extractedCovenants.length ++
        " covenants automatically extracted and added to monitoring: " ++
        String.intercalate ", " (dna.extractedCovenants.map (fun c => c.title)) ++ "." }
  { loan with
    loanDNA := some { dna with extractedAt := now,
                               sourceDocument := fileName.getD "document.pdf" },
    covenants := loan.covenants ++ newCovenants,
    timelineEvents := loan.timelineEvents ++ [docEvent, covenantEvent] }

/-- Portfolio Health aggregate from DashboardView: Math.round of the mean
complianceScore over all loans, or 0 when the portfolio is empty. -/
def avgScore (loans : List Loan) : Nat :=
  let totalLoans := loans.length
  if totalLoans > 0 then
    jsRoundDiv ((loans.map (fun loan => loan.complianceScore)).sum) totalLoans
  else 0

/-- currentValue: covenant.value || 'Pending' (generateRiskPredictions).
Separate from Option.getD because the empty string is also falsy. -/
def valueOrPending : Option String → String
  | none => "Pending"
  | some s => if s ≠ "" then s else "Pending"

/-- The random draws one covenant's fallback prediction may consume
(Math.random() scaled as in generateRiskPredictions): a probability draw,
a months-to-breach draw, and a trend draw. -/
structure RandomDraws where
  probDraw : Nat
  monthsDraw : Nat
  trendImproving : Bool
deriving DecidableEq, Repr

/-- One covenant's entry of the fallback risk-prediction generator
(generateRiskPredictions, geminiService): only Financial covenants with a
truthy threshold produce an entry; a Breached covenant gets probability
100, a deteriorating trend and the literal breach date "Already breached";
the other branches draw their numbers from `rd`.  JavaScript calendar
month addition for the At Risk branch's breach date is modelled as 30-day
increments; nothing proved below depends on it. -/
def predictForCovenant (covenant : Covenant) (rd : RandomDraws) (nowMs : Nat) :
    Option RiskPrediction :=
  if covenant.type = CovenantType.Financial ∧ truthy covenant.threshold then
    let result :=
      if covenant.status = ComplianceStatus.Breached then
        (100, Trend.deteriorating, "Already breached",
         "This covenant is currently in breach. Immediate remediation required. Consider waiver request or amendment negotiation.")
      else if covenant.status = ComplianceStatus.AtRisk then
        let probability := rd.probDraw % 30 + 60
        let monthsToBreak := rd.monthsDraw % 4 + 1
        (probability, Trend.deteriorating, isoDateOfMs (nowMs + monthsToBreak * 30 * msPerDay),
         "Based on current trajectory and historical patterns, there is a " ++
           natStr probability ++ "% probability of breach within " ++
           natStr monthsToBreak ++
           " months. Key drivers: declining EBITDA trend, stable debt levels. Recommend proactive borrower engagement.")
      else if covenant.status = ComplianceStatus.Compliant then
        let probability := rd.probDraw % 25
        let trend := if rd.trendImproving then Trend.improving else Trend.stable
        (probability, trend, "",
         "Covenant currently in compliance with healthy buffer. " ++
           (if rd.trendImproving then "Positive trend observed in underlying metrics."
            else "Stable performance expected to continue.") ++
           " Low breach probability under base case scenario.")
      else
        let probability := rd.probDraw % 40 + 10
        (probability, Trend.stable, "",
         "Upcoming covenant test. Based on preliminary data, compliance is " ++
           (if probability < 30 then "likely" else "uncertain") ++
           ". Continue monitoring leading indicators.")
    some
      { covenantId := covenant.id,
        covenantTitle := covenant.title,
        currentValue := valueOrPending covenant.value,
        threshold := (covenant.threshold).getD "",
        predictedBreachDate := result.2.2.1,
        probability := result.1,
        trend := result.2.1,
        explanation := result.2.2.2 }
  else none

/-- A covenant is eligible for a fallback prediction when it is Financial
with a truthy threshold (generateRiskPredictions, geminiService). -/
def eligibleForPrediction (c : Covenant) : Bool :=
  c.type = CovenantType.Financial && truthy c.threshold

/-- Fallback risk-prediction generator (generateRiskPredictions,
geminiService): one entry per eligible covenant, in covenant order; `rds`
supplies the Math.random draws each covenant's branch consumes. -/
def generateRiskPredictions (loan : Loan) (rds : Covenant → RandomDraws) (nowMs : Nat) :
    List RiskPrediction :=
  loan.covenants.filterMap (fun c => predictForCovenant c (rds c) nowMs)

/-- The stored session tokens (module state of the API service). -/
structure TokenState where
  accessToken : Option String
  refreshToken : Option String
deriving DecidableEq, Repr

/-- setTokens (api service): store both tokens. -/
def setTokens (access refresh : String) : TokenState :=
  { accessToken := some access, refreshToken := some refresh }

/-- clearTokens (api service): drop both tokens. -/
def clearTokens : TokenState :=
  { accessToken := none, refreshToken := none }

/-- Outcome of the POST /auth/refresh/ call as the caller observes it:
either response.ok with the returned access token and optional rotated
refresh token, or anything else (non-2xx response or a thrown network
error). -/
inductive RefreshOutcome
  | ok (access : String) (refresh : Option String)
  | failed
deriving DecidableEq, Repr

/-- refreshAccessToken (api service): on a successful response store the
new access token and the rotated refresh token when one was returned
(data.refresh || refreshToken), returning true; on any failure clear the
stored tokens and return false. -/
def refreshAccessToken (st : TokenState) (outcome : RefreshOutcome) :
    Bool × TokenState :=
  match outcome with
  | RefreshOutcome.ok access refresh =>
    (true, setTokens access (match refresh with
      | some r => r
      | none => (st.refreshToken).getD ""))
  | RefreshOutcome.failed => (false, clearTokens)

/-- fetchWithAuth (api service) instrumented with the number of times the
original request is sent.  `send tok` is the HTTP status the server
returns for the request carrying bearer token `tok`; `refreshOutcome` is
what the refresh endpoint would answer.  On a 401 while a refresh token
is held, refresh once and, when the refresh succeeds, re-send the request
once with the new access token; every other status is returned as is. -/
def fetchWithAuth (st : TokenState) (send : Option String → Nat)
    (refreshOutcome : RefreshOutcome) : Nat × TokenState × Nat :=
  let status1 := send st.accessToken
  if status1 = 401 ∧ (st.refreshToken).isSome then
    let refreshed := refreshAccessToken st refreshOutcome
    if refreshed.1 then
      (send refreshed.2.accessToken, refreshed.2, 2)
    else
      (status1, refreshed.2, 1)
  else
    (status1, st, 1)

/-- What the health-check fetch can come back with: a thrown network
error, an abort fired by the 10-second timeout, or an HTTP response with
a status code and a body whose JSON either fails to parse or carries an
optional status field. -/
inductive HealthOutcome
  | netError
  | aborted
  | response (status : Nat) (parseOk : Bool) (statusField : Option String)
deriving DecidableEq, Repr

/-- The fixed health-check timeout (api service): 10 seconds. -/
def healthCheckTimeoutMs : Nat := 10000

/-- checkBackendHealth (api service): true exactly when the response is
2xx (response.ok), its body parses, and the body's status field equals
"healthy"; every throw (network error, abort, JSON parse failure) is
caught and reported as false. -/
def checkBackendHealth : HealthOutcome → Bool
  | HealthOutcome.netError => false
  | HealthOutcome.aborted => false
  | HealthOutcome.response status parseOk statusField =>
    if 200 ≤ status ∧ status ≤ 299 then
      if parseOk then statusField = some "healthy" else false
    else false

/-- The spec's compliance-score formula, written from the spec's words:
round(100 x compliantEquivalentCount / totalCovenants), and 100 for a
loan with zero covenants.  Stated over the rationals with Mathlib's
round, to be compared with the implementation's natural-number
computation. -/
def specComplianceScore (covs : List Covenant) : ℤ :=
  if covs.length = 0 then 100
  else round ((100 * (((covs.filter compliantEquivalent).length : ℚ))) / (covs.length : ℚ))

/-- The dashboard's portfolio-average score written from the spec's
words: round of the mean of the loans' complianceScore values, and 0 for
an empty portfolio. -/
def specPortfolioHealth (loans : List Loan) : ℤ :=
  if loans.length = 0 then 0
  else round ((((loans.map (fun loan => loan.complianceScore)).sum : ℕ) : ℚ) / (loans.length : ℚ))

/-- Substring relation used to state that an event description embeds a
value: the needle's characters occur contiguously in the haystack. -/
def embedsIn (needle hay : String) : Prop :=
  needle.data <:+: hay.data

instance (needle hay : String) : Decidable (embedsIn needle hay) :=
  List.decidableInfix needle.data hay.data

/-- String rendering of a trend value (template interpolation of the
union literal). -/
def Trend.str : Trend → String
  | .improving => "improving"
  | .stable => "stable"
  | .deteriorating => "deteriorating"

/-- The quote-doubling escape .replace of the description and
summary fields in generateCSV (LoanDetailView.tsx). -/
def escQ : List Char → List Char
  | [] => []
  | c :: cs => if c = '"' then '"' :: '"' :: escQ cs else c :: escQ cs

/-- String form of the quote-doubling escape. -/
def escapeQuotes (s : String) : String := String.mk (escQ s.data)

/-- Wrap a field in double quotes, as the CSV template literals do. -/
def quoteF (s : String) : String := "\"" ++ s ++ "\""

/-- x || 'N/A' for the optional threshold and value fields. -/
def orNA : Option String → String
  | none => "N/A"
  | some s => if s ≠ "" then s else "N/A"

/-- The covenant table's header line (generateCSV). -/
def csvHeaderLine : String :=
  "Title,Type,Due Date,Status,Threshold,Current Value,Description"

/-- One covenant row of generateCSV (LoanDetailView.tsx): every field
quote-wrapped, only the description quote-escaped. -/
def covenantRow (cov : Covenant) : String :=
  quoteF cov.title ++ "," ++ quoteF cov.type.str ++ "," ++ quoteF cov.dueDate ++ "," ++
    quoteF cov.status.str ++ "," ++ quoteF (orNA cov.threshold) ++ "," ++
    quoteF (orNA cov.value) ++ "," ++ quoteF (escapeQuotes cov.description)

/-- One risk-prediction row of generateCSV (LoanDetailView.tsx). -/
def predictionRow (p : RiskPrediction) : String :=
  quoteF p.covenantTitle ++ "," ++ natStr p.probability ++ "%," ++ p.trend.str ++ "," ++
    quoteF p.predictedBreachDate ++ "," ++ quoteF (escapeQuotes p.explanation)

/-- The optional risk-prediction section of generateCSV: a blank line
(from the leading newline of the section literal), the section title,
the header and one row per prediction; nothing when there are no
predictions. -/
def csvPredictionLines (predictions : List RiskPrediction) : List String :=
  if predictions.length > 0 then
    "" :: "RISK PREDICTIONS" ::
      "Covenant,Probability,Trend,Predicted Breach Date,Explanation" ::
      predictions.map predictionRow
  else []

/-- The metadata, summary and covenant-table-header lines of generateCSV
(LoanDetailView.tsx), one list entry per output line; blank entries are
the blank lines the doubled newlines of the source produce.
`generatedAt` stands for new Date().toLocaleString(). -/
def csvMetaLines (loan : Loan) (generatedAt summary : String) : List String :=
  ["LOAN SNAPSHOT REPORT",
   "Generated:," ++ generatedAt,
   "",
   "LOAN DETAILS",
   "Borrower," ++ loan.borrower,
   "Loan ID," ++ loan.id,
   "Amount," ++ loan.currency ++ " " ++ natLocaleStr loan.amount,
   "Interest Rate," ++ natStr loan.interestRate ++ "%",
   "Start Date," ++ loan.startDate,
   "Maturity Date," ++ loan.maturityDate,
   "Status," ++ loan.status.str,
   "Compliance Score," ++ natStr loan.complianceScore ++ "/100",
   "",
   "AI SUMMARY",
   quoteF (escapeQuotes summary),
   "",
   "COVENANTS",
   csvHeaderLine]

/-- All lines of generateCSV, in output order. -/
def generateCSVLines (loan : Loan) (generatedAt summary : String)
    (predictions : List RiskPrediction) : List String :=
  csvMetaLines loan generatedAt summary ++ loan.covenants.map covenantRow ++
    csvPredictionLines predictions

/-- Join newline-terminated lines into one string. -/
def joinNL : List String → String
  | [] => ""
  | l :: ls => l ++ "\n" ++ joinNL ls

/-- generateCSV (LoanDetailView.tsx): the exported CSV text.  The source
builds it by concatenating newline-terminated chunks; the line
decomposition above mirrors each chunk, and every line is terminated by
one newline, so the concatenation equals this join. -/
def generateCSV (loan : Loan) (generatedAt summary : String)
    (predictions : List RiskPrediction) : String :=
  joinNL (generateCSVLines loan generatedAt summary predictions)

/-- Split a character stream at newlines, like String.split('\n'):
a trailing newline yields a trailing empty line. -/
def splitLines : List Char → List (List Char)
  | [] => [[]]
  | c :: cs =>
    if c = '\n' then [] :: splitLines cs
    else
      match splitLines cs with
      | [] => [[c]]
      | l :: ls => (c :: l) :: ls

/-- Modelled from the spec: the repository ships no CSV reader, and the
spec's round-trip property speaks of re-parsing the covenant table, so
the parser is written from the spec's words using the standard CSV
quoted-field grammar: a row is a comma-separated sequence of
double-quote-delimited fields in which a doubled quote stands for a
literal quote.  `expectOpen` is true when the scanner expects the
opening quote of the next field; `acc` holds the current field's
characters in reverse; `fields` holds the completed fields. -/
def parseRowGo (expectOpen : Bool) (cs : List Char) (acc : List Char)
    (fields : List String) : Option (List String) :=
  match expectOpen, cs with
  | true, [] => none
  | true, c :: cs' =>
    if c = '"' then parseRowGo false cs' [] fields else none
  | false, [] => none
  | false, c :: cs' =>
    if c = '"' then
      match cs' with
      | [] => some (fields ++ [String.mk acc.reverse])
      | c2 :: cs'' =>
        if c2 = '"' then parseRowGo false cs'' ('"' :: acc) fields
        else if c2 = ',' then parseRowGo true cs'' [] (fields ++ [String.mk acc.reverse])
        else none
    else parseRowGo false cs' (c :: acc) fields

/-- Parse one CSV row of quoted fields. -/
def parseRow (cs : List Char) : Option (List String) :=
  parseRowGo true cs [] []

/-- Parse every row, failing when any row is malformed. -/
def parseRows : List (List Char) → Option (List (List String))
  | [] => some []
  | r :: rs =>
    match parseRow r, parseRows rs with
    | some x, some xs => some (x :: xs)
    | _, _ => none

/-- Locate the covenant table: the run of nonempty lines right after the
covenant header line. -/
def findCovenantTable : List (List Char) → Option (List (List Char))
  | [] => none
  | l :: ls =>
    if l = csvHeaderLine.data then some (ls.takeWhile (fun r => !r.isEmpty))
    else findCovenantTable ls

/-- Modelled from the spec: re-parse the covenant table of an exported
CSV — split into lines, locate the table under the header line, and
parse each row. -/
def parseCovenantTable (csv : String) : Option (List (List String)) :=
  match findCovenantTable (splitLines csv.data) with
  | none => none
  | some rows => parseRows rows

/-- A parsed row reproduces the six fields the round-trip property names:
title, type, due date, status, threshold and value of the covenant. -/
def rowReproduces (c : Covenant) (row : List String) : Prop :=
  row.get? 0 = some c.title ∧
  row.get? 1 = some c.type.str ∧
  row.get? 2 = some c.dueDate ∧
  row.get? 3 = some c.status.str ∧
  row.get? 4 = c.threshold ∧
  row.get? 5 = c.value

instance (c : Covenant) (row : List String) : Decidable (rowReproduces c row) := by
  unfold rowReproduces
  infer_instance

/-- A string is safe inside a quoted CSV field of this exporter: no
double quote (only the description is escaped) and no newline. -/
def csvFieldSafe (s : String) : Prop :=
  ¬ '"' ∈ s.data ∧ ¬ '\n' ∈ s.data

/-- The field list the exporter writes for one covenant, in column
order. -/
def expectedRow (c : Covenant) : List String :=
  [c.title, c.type.str, c.dueDate, c.status.str, orNA c.threshold, orNA c.value,
    c.description]

/-- A covenant whose exported row survives the round trip: quote- and
newline-free title and due date, a non-empty threshold and value that
are themselves safe, and a newline-free description (its quotes are
escaped). -/
def covenantCSVSafe (c : Covenant) : Prop :=
  csvFieldSafe c.title ∧ csvFieldSafe c.dueDate ∧
  c.threshold ≠ none ∧ c.threshold ≠ some "" ∧ csvFieldSafe (orNA c.threshold) ∧
  c.value ≠ none ∧ c.value ≠ some "" ∧ csvFieldSafe (orNA c.value) ∧
  ¬ '\n' ∈ c.description.data

/-- A small concrete covenant for scenario statements. -/
def mkCov (cid : String) (st : ComplianceStatus) : Covenant :=
  { id := cid,
    title := "Covenant " ++ cid,
    type := CovenantType.Financial,
    dueDate := "2026-01-01",
    status := st,
    description := "test covenant" }

/-- Concrete loan for the spec's 75-percent scenario: statuses
[Compliant, Compliant, Waived, Upcoming] before the mutation. -/
def exampleLoan : Loan :=
  { id := "ln1",
    borrower := "Acme Industrial",
    amount := 1000000,
    currency := "USD",
    interestRate := 5,
    startDate := "2024-01-01",
    maturityDate := "2029-01-01",
    status := LoanStatus.Active,
    complianceScore := 100,
    covenants := [mkCov "c1" ComplianceStatus.Compliant,
                  mkCov "c2" ComplianceStatus.Compliant,
                  mkCov "c3" ComplianceStatus.Waived,
                  mkCov "c4" ComplianceStatus.Upcoming],
    timelineEvents := [] }

/-- Concrete loan with no covenants. -/
def emptyCovenantLoan : Loan :=
  { exampleLoan with id := "ln0", covenants := [] }

instance (s : String) : Decidable (csvFieldSafe s) := by
  unfold csvFieldSafe
  infer_instance

instance (c : Covenant) : Decidable (covenantCSVSafe c) := by
  unfold covenantCSVSafe
  infer_instance

/-- A concrete covenant whose CSV row survives the round trip. -/
def safeCov : Covenant :=
  { mkCov "c1" ComplianceStatus.Compliant with
    threshold := some "< 4.0x", value := some "3.2x" }

/-- A concrete loan holding only round-trip-safe covenants. -/
def safeLoan : Loan := { exampleLoan with covenants := [safeCov] }

/-- A concrete loan holding a covenant without threshold or value. -/
def naLoan : Loan :=
  { exampleLoan with covenants := [mkCov "c1" ComplianceStatus.Compliant] }

section Theorems

/-- Natural-number rounding agrees with Mathlib's round of the exact
quotient. -/
theorem jsRoundDiv_eq_round (a b : Nat) (hb : 0 < b) :
    (jsRoundDiv a b : ℤ) = round ((a : ℚ) / (b : ℚ)) := by
  have hbq : (b : ℚ) ≠ 0 := Nat.cast_ne_zero.mpr hb.ne'
  rw [round_eq]
  have key : (a : ℚ) / (b : ℚ) + 1 / 2 = (((2 * a + b : ℕ) : ℤ) : ℚ) / ((2 * b : ℕ) : ℚ) := by
    push_cast
    field_simp
    ring
  rw [key, Rat.floor_intCast_div_natCast]
  simp [jsRoundDiv, Int.ofNat_div]

/-- The implementation's score computation agrees with the spec's
round-based formula. -/
theorem recompute_eq_spec (covs : List Covenant) :
    (recomputeComplianceScore covs : ℤ) = specComplianceScore covs := by
  unfold recomputeComplianceScore specComplianceScore
  by_cases h : covs.length = 0
  · simp [h]
  · have hpos : 0 < covs.length := Nat.pos_of_ne_zero h
    simp only [h, if_false, hpos, if_true, gt_iff_lt]
    rw [jsRoundDiv_eq_round _ _ hpos]
    congr 1
    push_cast
    ring

/-- The recomputed score never exceeds 100. -/
theorem recompute_le_100 (covs : List Covenant) :
    recomputeComplianceScore covs ≤ 100 := by
  unfold recomputeComplianceScore jsRoundDiv
  by_cases h : covs.length > 0
  · simp only [h, if_true]
    have hc : (covs.filter compliantEquivalent).length ≤ covs.length :=
      List.length_filter_le _ _
    have h2 : 0 < 2 * covs.length := by omega
    have := (Nat.div_lt_iff_lt_mul h2).mpr
      (show 2 * ((covs.filter compliantEquivalent).length * 100) + covs.length <
        101 * (2 * covs.length) by omega)
    omega
  · simp [h]

/-- C1: after any covenant status mutation the loan's complianceScore
equals round(100 x c / n) over the updated covenant set, with
compliant-equivalent statuses Compliant, Waived and Upcoming; it is 100
when the loan has no covenants; it never exceeds 100 (and is a natural
number, hence at least 0); and the 4-covenant scenario with statuses
[Compliant, AtRisk, Waived, Upcoming] scores 75. -/
theorem complianceScore_recomputed_after_update :
    (∀ loan target newStatus currentValue waiverReason now evtId actingUser,
      (((handleUpdateCovenantStatus loan target newStatus currentValue waiverReason
          now evtId actingUser).complianceScore : ℤ) =
        specComplianceScore (handleUpdateCovenantStatus loan target newStatus
          currentValue waiverReason now evtId actingUser).covenants) ∧
      ((handleUpdateCovenantStatus loan target newStatus currentValue waiverReason
          now evtId actingUser).covenants = [] →
        (handleUpdateCovenantStatus loan target newStatus currentValue waiverReason
          now evtId actingUser).complianceScore = 100) ∧
      (handleUpdateCovenantStatus loan target newStatus currentValue waiverReason
          now evtId actingUser).complianceScore ≤ 100) ∧
    (handleUpdateCovenantStatus exampleLoan (mkCov "c2" ComplianceStatus.Compliant)
      ComplianceStatus.AtRisk "" "" "2026-10-12" "evt1" "Admin User").complianceScore = 75 := by
  constructor
  · intro loan target newStatus currentValue waiverReason now evtId actingUser
    refine ⟨?_, ?_, ?_⟩
    · rw [show (handleUpdateCovenantStatus loan target newStatus currentValue
          waiverReason now evtId actingUser).complianceScore =
          recomputeComplianceScore (handleUpdateCovenantStatus loan target newStatus
            currentValue waiverReason now evtId actingUser).covenants from rfl]
      exact recompute_eq_spec _
    · intro hnil
      rw [show (handleUpdateCovenantStatus loan target newStatus currentValue
          waiverReason now evtId actingUser).complianceScore =
          recomputeComplianceScore (handleUpdateCovenantStatus loan target newStatus
            currentValue waiverReason now evtId actingUser).covenants from rfl, hnil]
      rfl
    · exact recompute_le_100 _
  · decide

/-- C1 witness: the zero-covenant clause at a concrete loan. -/
theorem complianceScore_recomputed_after_update_witness :
    (handleUpdateCovenantStatus emptyCovenantLoan (mkCov "cX" ComplianceStatus.Compliant)
      ComplianceStatus.AtRisk "" "" "2026-10-12" "evt1" "Admin User").complianceScore = 100 := by
  have h := (complianceScore_recomputed_after_update.1 emptyCovenantLoan
    (mkCov "cX" ComplianceStatus.Compliant) ComplianceStatus.AtRisk
    "" "" "2026-10-12" "evt1" "Admin User").2.1
  exact h (by decide)

/-- C8: the dashboard's Portfolio Health is the rounded mean of the
loans' compliance scores when the portfolio is nonempty and 0 when it is
empty, even though an individual loan with no covenants scores 100. -/
theorem avgScore_spec :
    (∀ loans, (avgScore loans : ℤ) = specPortfolioHealth loans) ∧
    avgScore [] = 0 ∧
    recomputeComplianceScore [] = 100 := by
  refine ⟨?_, rfl, rfl⟩
  intro loans
  unfold avgScore specPortfolioHealth
  by_cases h : loans.length = 0
  · simp [h]
  · have hpos : 0 < loans.length := Nat.pos_of_ne_zero h
    simp only [h, if_false, hpos, if_true, gt_iff_lt]
    exact jsRoundDiv_eq_round _ _ hpos

/-- C2 (amended): after a status update the three waiver fields are
populated exactly when the resulting status is Waived; changing to
Waived writes the reason, waiverDate = now and waiverApprovedBy = the
fixed string "Admin User" (not the acting user); changing to any
non-Waived status clears all three regardless of the prior state. -/
theorem waiver_fields_iff_waived
    (cov : Covenant) (newStatus : ComplianceStatus)
    (currentValue waiverReason now actingUser : String) :
    (((updateOneCovenant cov newStatus currentValue waiverReason now actingUser).waiverReason.isSome ∧
      (updateOneCovenant cov newStatus currentValue waiverReason now actingUser).waiverDate.isSome ∧
      (updateOneCovenant cov newStatus currentValue waiverReason now actingUser).waiverApprovedBy.isSome) ↔
      (updateOneCovenant cov newStatus currentValue waiverReason now actingUser).status =
        ComplianceStatus.Waived) ∧
    (newStatus = ComplianceStatus.Waived →
      (updateOneCovenant cov newStatus currentValue waiverReason now actingUser).waiverReason =
        some waiverReason ∧
      (updateOneCovenant cov newStatus currentValue waiverReason now actingUser).waiverDate =
        some now ∧
      (updateOneCovenant cov newStatus currentValue waiverReason now actingUser).waiverApprovedBy =
        some "Admin User") ∧
    (newStatus ≠ ComplianceStatus.Waived →
      (updateOneCovenant cov newStatus currentValue waiverReason now actingUser).waiverReason =
        none ∧
      (updateOneCovenant cov newStatus currentValue waiverReason now actingUser).waiverDate =
        none ∧
      (updateOneCovenant cov newStatus currentValue waiverReason now actingUser).waiverApprovedBy =
        none) := by
  by_cases h : newStatus = ComplianceStatus.Waived <;>
    simp [updateOneCovenant, h]

/-- C2 witness: both implications at concrete inputs. -/
theorem waiver_fields_iff_waived_witness :
    ((updateOneCovenant (mkCov "c1" ComplianceStatus.Compliant) ComplianceStatus.Waived
        "1.2x" "Temporary waiver" "2026-10-12" "Admin User").waiverDate = some "2026-10-12") ∧
    ((updateOneCovenant (mkCov "c1" ComplianceStatus.Waived) ComplianceStatus.Compliant
        "1.2x" "" "2026-10-12" "Admin User").waiverReason = none) :=
  ⟨((waiver_fields_iff_waived (mkCov "c1" ComplianceStatus.Compliant)
      ComplianceStatus.Waived "1.2x" "Temporary waiver" "2026-10-12"
      "Admin User").2.1 (by decide)).2.1,
   ((waiver_fields_iff_waived (mkCov "c1" ComplianceStatus.Waived)
      ComplianceStatus.Compliant "1.2x" "" "2026-10-12"
      "Admin User").2.2 (by decide)).1⟩

/-- C2 counterexample: the handler writes the constant "Admin User" into
waiverApprovedBy even when the signed-in (acting) user is someone else,
so the field does not record the acting user as the claim states. -/
theorem waiver_approved_by_is_constant :
    (updateOneCovenant (mkCov "c1" ComplianceStatus.Compliant) ComplianceStatus.Waived
      "" "Temporary waiver" "2026-10-12" "Jane Doe").waiverApprovedBy = some "Admin User" ∧
    (updateOneCovenant (mkCov "c1" ComplianceStatus.Compliant) ComplianceStatus.Waived
      "" "Temporary waiver" "2026-10-12" "Jane Doe").waiverApprovedBy ≠ some "Jane Doe" := by
  decide

/-- C3: the status-update handler appends exactly the emitted events to
the timeline; no event is emitted when the status is unchanged; an actual
change emits exactly one event, a Waiver Granted event referencing the
covenant when the new status is Waived, and otherwise a Status Changed
event referencing the covenant whose description embeds the old status,
the new status, and the current value when one was provided. -/
theorem timeline_event_emission :
    (∀ loan target newStatus currentValue waiverReason now evtId actingUser,
      (handleUpdateCovenantStatus loan target newStatus currentValue waiverReason
        now evtId actingUser).timelineEvents =
        loan.timelineEvents ++
          statusChangeEvents target target.status newStatus currentValue waiverReason now evtId) ∧
    (∀ target oldStatus newStatus currentValue waiverReason now evtId,
      (oldStatus = newStatus →
        statusChangeEvents target oldStatus newStatus currentValue waiverReason now evtId = []) ∧
      (oldStatus ≠ newStatus →
        (statusChangeEvents target oldStatus newStatus currentValue waiverReason now evtId).length = 1 ∧
        ∀ e ∈ statusChangeEvents target oldStatus newStatus currentValue waiverReason now evtId,
          e.relatedCovenantId = some target.id ∧
          (newStatus = ComplianceStatus.Waived → e.type = TimelineEventType.WaiverGranted) ∧
          (newStatus ≠ ComplianceStatus.Waived →
            e.type = TimelineEventType.StatusChanged ∧
            embedsIn oldStatus.str e.description ∧
            embedsIn newStatus.str e.description ∧
            (currentValue ≠ "" → embedsIn currentValue e.description)))) := by
  constructor
  · intro loan target newStatus currentValue waiverReason now evtId actingUser
    rfl
  · intro target oldStatus newStatus currentValue waiverReason now evtId
    constructor
    · intro heq
      simp [statusChangeEvents, heq]
    · intro hne
      by_cases hw : newStatus = ComplianceStatus.Waived
      · subst hw
        refine ⟨by simp [statusChangeEvents, hne], ?_⟩
        intro e he
        simp [statusChangeEvents, hne] at he
        subst he
        exact ⟨rfl, fun _ => rfl, fun hcon => absurd rfl hcon⟩
      · refine ⟨by simp [statusChangeEvents, hne, hw], ?_⟩
        intro e he
        simp [statusChangeEvents, hne, hw] at he
        subst he
        refine ⟨rfl, fun hcon => absurd hcon hw, fun _ => ⟨rfl, ?_, ?_, ?_⟩⟩
        · exact ⟨"Covenant status changed from ".data,
            (" to " ++ newStatus.str ++ ". " ++
              (if currentValue ≠ "" then "Current value: " ++ currentValue ++ "." else "")).data,
            by simp [String.data_append]⟩
        · exact ⟨("Covenant status changed from " ++ oldStatus.str ++ " to ").data,
            (". " ++
              (if currentValue ≠ "" then "Current value: " ++ currentValue ++ "." else "")).data,
            by simp [String.data_append]⟩
        · intro hcv
          exact ⟨("Covenant status changed from " ++ oldStatus.str ++ " to " ++
              newStatus.str ++ ". " ++ "Current value: ").data,
            ".".data,
            by simp [String.data_append, hcv]⟩

/-- C3 witness: the no-change and change clauses at concrete inputs. -/
theorem timeline_event_emission_witness :
    (statusChangeEvents (mkCov "c1" ComplianceStatus.Compliant)
      ComplianceStatus.Compliant ComplianceStatus.Compliant "" "" "2026-10-12" "evt1" = []) ∧
    ((statusChangeEvents (mkCov "c1" ComplianceStatus.Compliant)
      ComplianceStatus.Compliant ComplianceStatus.AtRisk "1.5x" "" "2026-10-12" "evt1").length = 1) := by
  refine ⟨(timeline_event_emission.2 (mkCov "c1" ComplianceStatus.Compliant)
      ComplianceStatus.Compliant ComplianceStatus.Compliant "" "" "2026-10-12" "evt1").1 rfl,
    ((timeline_event_emission.2 (mkCov "c1" ComplianceStatus.Compliant)
      ComplianceStatus.Compliant ComplianceStatus.AtRisk "1.5x" "" "2026-10-12" "evt1").2
      (by decide)).1⟩

/-- C7: a status update sets the value field to the provided current
value when a non-empty one was given and retains the prior value
otherwise, sets the status, and leaves every other non-waiver field of
the covenant unchanged; covenants other than the target are untouched by
the loan-level operation. -/
theorem update_value_and_frame :
    (∀ cov newStatus currentValue waiverReason now actingUser,
      (updateOneCovenant cov newStatus currentValue waiverReason now actingUser).id = cov.id ∧
      (updateOneCovenant cov newStatus currentValue waiverReason now actingUser).title = cov.title ∧
      (updateOneCovenant cov newStatus currentValue waiverReason now actingUser).type = cov.type ∧
      (updateOneCovenant cov newStatus currentValue waiverReason now actingUser).dueDate = cov.dueDate ∧
      (updateOneCovenant cov newStatus currentValue waiverReason now actingUser).description = cov.description ∧
      (updateOneCovenant cov newStatus currentValue waiverReason now actingUser).threshold = cov.threshold ∧
      (updateOneCovenant cov newStatus currentValue waiverReason now actingUser).frequency = cov.frequency ∧
      (updateOneCovenant cov newStatus currentValue waiverReason now actingUser).status = newStatus ∧
      (currentValue ≠ "" →
        (updateOneCovenant cov newStatus currentValue waiverReason now actingUser).value = some currentValue) ∧
      (currentValue = "" →
        (updateOneCovenant cov newStatus currentValue waiverReason now actingUser).value = cov.value)) ∧
    (∀ loan target newStatus currentValue waiverReason now evtId actingUser c,
      c ∈ loan.covenants → c.id ≠ target.id →
      c ∈ (handleUpdateCovenantStatus loan target newStatus currentValue waiverReason
        now evtId actingUser).covenants) := by
  constructor
  · intro cov newStatus currentValue waiverReason now actingUser
    by_cases h : newStatus = ComplianceStatus.Waived <;>
      by_cases hcv : currentValue = "" <;>
        simp [updateOneCovenant, h, hcv]
  · intro loan target newStatus currentValue waiverReason now evtId actingUser c hc hne
    simp only [handleUpdateCovenantStatus, List.mem_map]
    exact ⟨c, hc, by simp [hne]⟩

/-- C7 witness: both value clauses at concrete inputs. -/
theorem update_value_and_frame_witness :
    ((updateOneCovenant (mkCov "c1" ComplianceStatus.Compliant) ComplianceStatus.AtRisk
        "1.5x" "" "2026-10-12" "Admin User").value = some "1.5x") ∧
    ((updateOneCovenant (mkCov "c1" ComplianceStatus.Compliant) ComplianceStatus.AtRisk
        "" "" "2026-10-12" "Admin User").value = (mkCov "c1" ComplianceStatus.Compliant).value) :=
  ⟨((update_value_and_frame.1 (mkCov "c1" ComplianceStatus.Compliant)
      ComplianceStatus.AtRisk "1.5x" "" "2026-10-12" "Admin User").2.2.2.2.2.2.2.2.1 (by decide)),
   ((update_value_and_frame.1 (mkCov "c1" ComplianceStatus.Compliant)
      ComplianceStatus.AtRisk "" "" "2026-10-12" "Admin User").2.2.2.2.2.2.2.2.2 rfl)⟩

/-- C4: applying an extraction result with N proposed covenants appends
exactly N new covenants after the existing ones (which are preserved
verbatim), gives every new covenant status Upcoming and a due date 90
days after the operation time, stores the extracted metadata on the
loan, and appends exactly two timeline events, a Document Uploaded event
followed by a Covenant Added event. -/
theorem apply_extracted_data_effects
    (loan : Loan) (dna : LoanDNA) (fileName : Option String) (now : String) (nowMs : Nat) :
    (handleApplyExtractedData loan dna fileName now nowMs).covenants.length =
      loan.covenants.length + dna.extractedCovenants.length ∧
    (handleApplyExtractedData loan dna fileName now nowMs).covenants.take
      loan.covenants.length = loan.covenants ∧
    (∀ c ∈ (handleApplyExtractedData loan dna fileName now nowMs).covenants.drop
        loan.covenants.length,
      c.status = ComplianceStatus.Upcoming ∧
      c.dueDate = isoDateOfMs (nowMs + 90 * msPerDay)) ∧
    (∃ d, (handleApplyExtractedData loan dna fileName now nowMs).loanDNA = some d ∧
      d.extractedAt = now ∧
      d.sourceDocument = fileName.getD "document.pdf" ∧
      d.extractedCovenants = dna.extractedCovenants ∧
      d.summary = dna.summary) ∧
    (∃ e1 e2, (handleApplyExtractedData loan dna fileName now nowMs).timelineEvents =
        loan.timelineEvents ++ [e1, e2] ∧
      e1.type = TimelineEventType.DocumentUploaded ∧
      e2.type = TimelineEventType.CovenantAdded) := by
  refine ⟨?_, ?_, ?_, ?_, ?_⟩
  · simp [handleApplyExtractedData]
  · simp [handleApplyExtractedData]
  · intro c hc
    simp only [handleApplyExtractedData, List.drop_left, List.mem_map] at hc
    obtain ⟨ec, _, rfl⟩ := hc
    exact ⟨rfl, rfl⟩
  · exact ⟨_, rfl, rfl, rfl, rfl, rfl⟩
  · exact ⟨_, _, rfl, rfl, rfl⟩

/-- C4 witness: the new-covenant clause at a concrete input. -/
theorem apply_extracted_data_effects_witness :
    (handleApplyExtractedData emptyCovenantLoan
      { extractedAt := "", sourceDocument := "doc.pdf", confidence := 90,
        keyTerms := { facilityType := "Term Loan B", purpose := "General Corporate Purposes",
                      securityType := "Senior Secured", governingLaw := "New York" },
        extractedCovenants := [{ title := "Maximum Leverage Ratio",
                                 type := CovenantType.Financial,
                                 threshold := "< 4.0x", frequency := "Quarterly",
                                 description := "Leverage covenant." }],
        riskFactors := [], summary := "s" }
      (some "doc.pdf") "2026-10-12" 1760227200000).covenants.length = 0 + 1 := by
  have h := (apply_extracted_data_effects emptyCovenantLoan
    { extractedAt := "", sourceDocument := "doc.pdf", confidence := 90,
      keyTerms := { facilityType := "Term Loan B", purpose := "General Corporate Purposes",
                    securityType := "Senior Secured", governingLaw := "New York" },
      extractedCovenants := [{ title := "Maximum Leverage Ratio",
                               type := CovenantType.Financial,
                               threshold := "< 4.0x", frequency := "Quarterly",
                               description := "Leverage covenant." }],
      riskFactors := [], summary := "s" }
    (some "doc.pdf") "2026-10-12" 1760227200000).1
  simpa using h

/-- C6: a 401 on an authenticated request while a refresh token is held
triggers exactly one refresh-and-retry, the retry carrying the freshly
stored access token; any other first response is returned untouched with
a single send; and a failed refresh clears the stored tokens. -/
theorem fetch_with_auth_retry (st : TokenState) (send : Option String → Nat)
    (ro : RefreshOutcome) :
    (fetchWithAuth st send ro).2.2 ≤ 2 ∧
    (send st.accessToken ≠ 401 →
      fetchWithAuth st send ro = (send st.accessToken, st, 1)) ∧
    ((st.refreshToken).isSome = false →
      fetchWithAuth st send ro = (send st.accessToken, st, 1)) ∧
    (∀ a r, send st.accessToken = 401 → (st.refreshToken).isSome → ro = RefreshOutcome.ok a r →
      fetchWithAuth st send ro = (send (some a), (refreshAccessToken st ro).2, 2) ∧
      (refreshAccessToken st ro).2.accessToken = some a) ∧
    (send st.accessToken = 401 → (st.refreshToken).isSome → ro = RefreshOutcome.failed →
      fetchWithAuth st send ro = (send st.accessToken, clearTokens, 1)) := by
  refine ⟨?_, ?_, ?_, ?_, ?_⟩
  · simp only [fetchWithAuth]
    split
    · split <;> simp
    · simp
  · intro h
    simp [fetchWithAuth, h]
  · intro h
    simp [fetchWithAuth, h]
  · intro a r h401 hheld hok
    subst hok
    simp [fetchWithAuth, h401, hheld, refreshAccessToken, setTokens]
  · intro h401 hheld hfail
    subst hfail
    simp [fetchWithAuth, h401, hheld, refreshAccessToken]

/-- C6 witness: the retry and refresh-failure clauses at concrete
inputs. -/
theorem fetch_with_auth_retry_witness :
    (fetchWithAuth { accessToken := some "expired", refreshToken := some "r1" }
      (fun tok => if tok = some "fresh" then 200 else 401)
      (RefreshOutcome.ok "fresh" none)).2.2 = 2 ∧
    (fetchWithAuth { accessToken := some "expired", refreshToken := some "r1" }
      (fun _ => 401) RefreshOutcome.failed).2.1 = clearTokens := by
  constructor
  · have h := ((fetch_with_auth_retry
      { accessToken := some "expired", refreshToken := some "r1" }
      (fun tok => if tok = some "fresh" then 200 else 401)
      (RefreshOutcome.ok "fresh" none)).2.2.2.1 "fresh" none (by decide) (by decide) rfl).1
    rw [h]
  · have h := (fetch_with_auth_retry
      { accessToken := some "expired", refreshToken := some "r1" }
      (fun _ => 401) RefreshOutcome.failed).2.2.2.2 rfl (by decide) rfl
    rw [h]

/-- An eligible covenant always yields a prediction entry carrying its
identifier and title, and a Breached eligible covenant yields probability
100, a deteriorating trend and the literal breach date. -/
theorem predict_eligible_spec (c : Covenant) (rd : RandomDraws) (nowMs : Nat)
    (h1 : c.type = CovenantType.Financial) (h2 : truthy c.threshold = true) :
    ∃ p, predictForCovenant c rd nowMs = some p ∧ p.covenantId = c.id ∧
      p.covenantTitle = c.title ∧
      (c.status = ComplianceStatus.Breached → p.probability = 100 ∧
        p.trend = Trend.deteriorating ∧ p.predictedBreachDate = "Already breached") := by
  have hsome : (predictForCovenant c rd nowMs).isSome := by
    simp [predictForCovenant, h1, h2]
  obtain ⟨p, hp⟩ := Option.isSome_iff_exists.mp hsome
  refine ⟨p, hp, ?_, ?_, ?_⟩
  · have hm : (predictForCovenant c rd nowMs).map (fun q => q.covenantId) = some c.id := by
      simp [predictForCovenant, h1, h2]
    rw [hp] at hm
    simpa using hm
  · have hm : (predictForCovenant c rd nowMs).map (fun q => q.covenantTitle) = some c.title := by
      simp [predictForCovenant, h1, h2]
    rw [hp] at hm
    simpa using hm
  · intro hb
    have hm : (predictForCovenant c rd nowMs).map
        (fun q => (q.probability, q.trend, q.predictedBreachDate)) =
        some (100, Trend.deteriorating, "Already breached") := by
      simp [predictForCovenant, h1, h2, hb]
    rw [hp] at hm
    simp at hm
    exact ⟨hm.1, hm.2.1, hm.2.2⟩

/-- An ineligible covenant yields no prediction entry. -/
theorem predict_ineligible (c : Covenant) (rd : RandomDraws) (nowMs : Nat)
    (h : eligibleForPrediction c = false) :
    predictForCovenant c rd nowMs = none := by
  have hnot : ¬(c.type = CovenantType.Financial ∧ truthy c.threshold = true) := by
    intro hand
    simp [eligibleForPrediction, hand.1, hand.2] at h
  simp [predictForCovenant, hnot]

/-- The filtered covenant list and the filterMapped prediction list are
pointwise related when eligible covenants always map to a related entry
and ineligible ones map to none. -/
theorem forall2_filter_filterMap {α β : Type} (elig : α → Bool) (f : α → Option β)
    (P : α → β → Prop)
    (h1 : ∀ a, elig a = true → ∃ b, f a = some b ∧ P a b)
    (h2 : ∀ a, elig a = false → f a = none) :
    ∀ l : List α, List.Forall₂ P (l.filter elig) (l.filterMap f) := by
  intro l
  induction l with
  | nil => simp
  | cons a t ih =>
    cases he : elig a
    · simp only [List.filter_cons, List.filterMap_cons, he, h2 a he]
      exact ih
    · obtain ⟨b, hb, hP⟩ := h1 a he
      simp only [List.filter_cons, List.filterMap_cons, he, hb]
      exact List.Forall₂.cons hP ih

/-- C9: the fallback generator produces an entry for a covenant exactly
when the covenant is Financial with a non-empty threshold; the produced
entries correspond one-to-one and in order with the eligible covenants,
carry their identifiers, and a Breached eligible covenant's entry has
probability 100, a deteriorating trend and breach date
"Already breached". -/
theorem risk_predictions_fallback :
    (∀ c rd nowMs, (predictForCovenant c rd nowMs).isSome = eligibleForPrediction c) ∧
    (∀ c rd nowMs, eligibleForPrediction c = true →
      c.status = ComplianceStatus.Breached →
      ∃ p, predictForCovenant c rd nowMs = some p ∧ p.covenantId = c.id ∧
        p.probability = 100 ∧ p.trend = Trend.deteriorating ∧
        p.predictedBreachDate = "Already breached") ∧
    (∀ loan rds nowMs,
      List.Forall₂ (fun c p => p.covenantId = c.id ∧ p.covenantTitle = c.title ∧
          (c.status = ComplianceStatus.Breached → p.probability = 100 ∧
            p.trend = Trend.deteriorating ∧ p.predictedBreachDate = "Already breached"))
        (loan.covenants.filter eligibleForPrediction)
        (generateRiskPredictions loan rds nowMs)) := by
  refine ⟨?_, ?_, ?_⟩
  · intro c rd nowMs
    cases he : eligibleForPrediction c
    · simp [predict_ineligible c rd nowMs he]
    · have hand : c.type = CovenantType.Financial ∧ truthy c.threshold = true := by
        simpa [eligibleForPrediction] using he
      obtain ⟨p, hp, -⟩ := predict_eligible_spec c rd nowMs hand.1 hand.2
      simp [hp]
  · intro c rd nowMs he hb
    have hand : c.type = CovenantType.Financial ∧ truthy c.threshold = true := by
      simpa [eligibleForPrediction] using he
    obtain ⟨p, hp, hid, -, hbr⟩ := predict_eligible_spec c rd nowMs hand.1 hand.2
    obtain ⟨hprob, htr, hdate⟩ := hbr hb
    exact ⟨p, hp, hid, hprob, htr, hdate⟩
  · intro loan rds nowMs
    refine forall2_filter_filterMap eligibleForPrediction
      (fun c => predictForCovenant c (rds c) nowMs) _ ?_ ?_ loan.covenants
    · intro c he
      have hand : c.type = CovenantType.Financial ∧ truthy c.threshold = true := by
        simpa [eligibleForPrediction] using he
      obtain ⟨p, hp, hid, htitle, hbr⟩ := predict_eligible_spec c (rds c) nowMs hand.1 hand.2
      exact ⟨p, hp, hid, htitle, hbr⟩
    · intro c he
      exact predict_ineligible c (rds c) nowMs he

/-- C9 witness: a Breached Financial covenant with a threshold at
concrete inputs. -/
theorem risk_predictions_fallback_witness :
    ∃ p, predictForCovenant
        { mkCov "c9" ComplianceStatus.Breached with threshold := some "< 4.0x" }
        { probDraw := 7, monthsDraw := 2, trendImproving := false } 1760227200000 = some p ∧
      p.covenantId = "c9" ∧ p.probability = 100 ∧ p.trend = Trend.deteriorating ∧
      p.predictedBreachDate = "Already breached" := by
  exact risk_predictions_fallback.2.1
    { mkCov "c9" ComplianceStatus.Breached with threshold := some "< 4.0x" }
    { probDraw := 7, monthsDraw := 2, trendImproving := false } 1760227200000
    (by decide) (by decide)

/-- C10: the health check reports true exactly for a 2xx response whose
body parses with status field "healthy"; every network error, timeout
abort, non-2xx response or unparsable body reports false; the abort
timeout is the fixed 10 seconds. -/
theorem health_check_total :
    (∀ o, checkBackendHealth o = true ↔
      ∃ s, o = HealthOutcome.response s true (some "healthy") ∧ 200 ≤ s ∧ s ≤ 299) ∧
    checkBackendHealth HealthOutcome.netError = false ∧
    checkBackendHealth HealthOutcome.aborted = false ∧
    healthCheckTimeoutMs = 10000 := by
  refine ⟨?_, rfl, rfl, rfl⟩
  intro o
  cases o with
  | netError => simp [checkBackendHealth]
  | aborted => simp [checkBackendHealth]
  | response s parseOk statusField =>
    by_cases hr : 200 ≤ s ∧ s ≤ 299
    · cases parseOk
      · simp [checkBackendHealth, hr]
      · simp only [checkBackendHealth]
        rw [if_pos hr]
        constructor
        · intro h
          have h3 : statusField = some "healthy" := by simpa using h
          exact ⟨s, by rw [h3], hr.1, hr.2⟩
        · rintro ⟨s', heq, -, -⟩
          injection heq with h1 h2 h3
          simp [h3]
    · simp only [checkBackendHealth]
      rw [if_neg hr]
      constructor
      · intro h
        cases h
      · rintro ⟨s', heq, hlo, hhi⟩
        injection heq with h1 h2 h3
        subst h1
        exact absurd ⟨hlo, hhi⟩ hr

/-- C10 witness: the healthy 200 response at a concrete input. -/
theorem health_check_total_witness :
    checkBackendHealth (HealthOutcome.response 200 true (some "healthy")) = true := by
  exact (health_check_total.1 (HealthOutcome.response 200 true (some "healthy"))).mpr
    ⟨200, rfl, by decide, by decide⟩

theorem mk_data (s : String) : String.mk s.data = s := by
  cases s
  rfl

theorem data_dq : "\"".data = ['"'] := rfl

theorem data_nl : "\n".data = ['\n'] := rfl

/-- Characters introduced by the quote escape are quotes. -/
theorem escQ_mem (l : List Char) (ch : Char) (h : ch ∈ escQ l) : ch ∈ l ∨ ch = '"' := by
  induction l with
  | nil => simp [escQ] at h
  | cons c cs ih =>
    by_cases hc : c = '"'
    · subst hc
      rw [escQ, if_pos rfl] at h
      rcases List.mem_cons.mp h with h1 | h1
      · exact Or.inr h1
      · rcases List.mem_cons.mp h1 with h2 | h2
        · exact Or.inr h2
        · rcases ih h2 with h3 | h3
          · exact Or.inl (List.mem_cons_of_mem _ h3)
          · exact Or.inr h3
    · rw [escQ, if_neg hc] at h
      rcases List.mem_cons.mp h with h1 | h1
      · exact Or.inl (h1 ▸ List.mem_cons_self _ _)
      · rcases ih h1 with h3 | h3
        · exact Or.inl (List.mem_cons_of_mem _ h3)
        · exact Or.inr h3

/-- Every character a natural number renders to is a digit. -/
theorem natStrAux_digit (fuel n : Nat) (ch : Char) (h : ch ∈ natStrAux fuel n) :
    ch.isDigit = true := by
  induction fuel generalizing n with
  | zero => simp [natStrAux] at h
  | succ fuel ih =>
    by_cases hn : n < 10
    · simp only [natStrAux, if_pos hn, List.mem_singleton] at h
      subst h
      interval_cases n <;> decide
    · simp only [natStrAux, if_neg hn, List.mem_append, List.mem_singleton] at h
      rcases h with h | h
      · exact ih _ h
      · subst h
        have hm : n % 10 < 10 := Nat.mod_lt _ (by omega)
        interval_cases hmod : n % 10 <;> decide

/-- Rendered numbers contain no newline. -/
theorem natStr_no_nl (n : Nat) (h : '\n' ∈ (natStr n).data) : False := by
  have := natStrAux_digit (n + 1) n '\n' h
  simp at this

/-- The grouped rendering only adds commas. -/
theorem group3Rev_mem (l : List Char) (ch : Char) (h : ch ∈ group3Rev l) :
    ch ∈ l ∨ ch = ',' := by
  match l with
  | [] => simp [group3Rev] at h
  | [a] => simp [group3Rev] at h; exact Or.inl (by simp [h])
  | [a, b] => simp [group3Rev] at h; rcases h with h | h <;> exact Or.inl (by simp [h])
  | [a, b, c] => simp [group3Rev] at h; rcases h with h | h | h <;> exact Or.inl (by simp [h])
  | d1 :: d2 :: d3 :: d4 :: rest =>
    simp only [group3Rev, List.mem_cons] at h
    rcases h with h | h | h | h | h
    · exact Or.inl (by simp [h])
    · exact Or.inl (by simp [h])
    · exact Or.inl (by simp [h])
    · exact Or.inr h
    · rcases group3Rev_mem (d4 :: rest) ch h with h' | h'
      · rcases List.mem_cons.mp h' with h'' | h''
        · exact Or.inl (by simp [h''])
        · exact Or.inl (by simp [List.mem_cons_of_mem, h''])
      · exact Or.inr h'

/-- Locale-grouped numbers contain no newline. -/
theorem natLocaleStr_no_nl (n : Nat) (h : '\n' ∈ (natLocaleStr n).data) : False := by
  simp only [natLocaleStr] at h
  have h1 : '\n' ∈ group3Rev (natStrData n).reverse := by
    simpa using h
  rcases group3Rev_mem _ _ h1 with h2 | h2
  · exact natStr_no_nl n (by simpa [natStr] using List.mem_reverse.mp h2)
  · simp at h2

/-- Splitting distributes over a newline-free prefix followed by a
newline. -/
theorem splitLines_append (l r : List Char) (h : '\n' ∈ l → False) :
    splitLines (l ++ '\n' :: r) = l :: splitLines r := by
  induction l with
  | nil => simp [splitLines]
  | cons c cs ih =>
    have hc : ¬ c = '\n' := fun he => h (by simp [he])
    have ih' := ih (fun hm => h (List.mem_cons_of_mem _ hm))
    simp only [List.cons_append, splitLines, if_neg hc]
    rw [show cs.append ('\n' :: r) = cs ++ '\n' :: r from rfl, ih']

/-- joinNL distributes over list append. -/
theorem joinNL_append (xs ys : List String) :
    joinNL (xs ++ ys) = joinNL xs ++ joinNL ys := by
  induction xs with
  | nil => simp [joinNL]
  | cons x xs ih => simp [joinNL, ih, String.append_assoc]

/-- Splitting the join of newline-free lines, followed by anything,
recovers the lines. -/
theorem splitLines_joinNL_prefix (ls : List String) (rest : List Char)
    (h : ∀ l ∈ ls, '\n' ∈ l.data → False) :
    splitLines ((joinNL ls).data ++ rest) = ls.map String.data ++ splitLines rest := by
  induction ls with
  | nil => simp [joinNL]
  | cons l ls ih =>
    have hdata : (joinNL (l :: ls)).data = l.data ++ '\n' :: (joinNL ls).data := by
      show (l ++ "\n" ++ joinNL ls).data = _
      simp [String.data_append, data_nl]
    rw [hdata, List.append_assoc, List.cons_append,
      splitLines_append _ _ (h l (List.mem_cons_self _ _)),
      ih (fun x hx => h x (List.mem_cons_of_mem _ hx))]
    rfl

theorem parseRowGo_open (cs : List Char) (acc : List Char) (fields : List String) :
    parseRowGo true ('"' :: cs) acc fields = parseRowGo false cs [] fields := by
  conv_lhs => rw [parseRowGo.eq_def]
  simp

theorem parseRowGo_cons_ne (c : Char) (hc : ¬ c = '"') (cs' : List Char)
    (acc : List Char) (fields : List String) :
    parseRowGo false (c :: cs') acc fields = parseRowGo false cs' (c :: acc) fields := by
  conv_lhs => rw [parseRowGo.eq_def]
  simp [hc]

theorem parseRowGo_dq (cs'' : List Char) (acc : List Char) (fields : List String) :
    parseRowGo false ('"' :: '"' :: cs'') acc fields =
      parseRowGo false cs'' ('"' :: acc) fields := by
  conv_lhs => rw [parseRowGo.eq_def]
  simp

theorem parseRowGo_comma (rest : List Char) (acc : List Char) (fields : List String) :
    parseRowGo false ('"' :: ',' :: rest) acc fields =
      parseRowGo true rest [] (fields ++ [String.mk acc.reverse]) := by
  conv_lhs => rw [parseRowGo.eq_def]
  simp

theorem parseRowGo_close (acc : List Char) (fields : List String) :
    parseRowGo false ['"'] acc fields = some (fields ++ [String.mk acc.reverse]) := by
  conv_lhs => rw [parseRowGo.eq_def]
  simp

/-- The scanner passes over quote-free field content, accumulating it. -/
theorem parseRowGo_through (l : List Char) (hq : '"' ∈ l → False) :
    ∀ (acc : List Char) (fields : List String) (rest : List Char),
    parseRowGo false (l ++ '"' :: rest) acc fields =
      parseRowGo false ('"' :: rest) (l.reverse ++ acc) fields := by
  induction l with
  | nil => intro acc fields rest; simp
  | cons c cs ih =>
    intro acc fields rest
    have hc : ¬ c = '"' := fun he => hq (by simp [he])
    rw [List.cons_append, parseRowGo_cons_ne c hc,
      ih (fun hm => hq (List.mem_cons_of_mem _ hm))]
    simp [List.append_assoc]

/-- The scanner passes over escaped field content, unescaping it. -/
theorem parseRowGo_esc (l : List Char) :
    ∀ (acc : List Char) (fields : List String) (rest : List Char),
    parseRowGo false (escQ l ++ '"' :: rest) acc fields =
      parseRowGo false ('"' :: rest) (l.reverse ++ acc) fields := by
  induction l with
  | nil => intro acc fields rest; simp [escQ]
  | cons c cs ih =>
    intro acc fields rest
    by_cases hc : c = '"'
    · subst hc
      rw [escQ, if_pos rfl, List.cons_append, List.cons_append, parseRowGo_dq, ih]
      simp [List.append_assoc]
    · rw [escQ, if_neg hc, List.cons_append, parseRowGo_cons_ne c hc, ih]
      simp [List.append_assoc]

/-- One quote-free field followed by a comma is consumed whole. -/
theorem parseRow_field (f : String) (hq : '"' ∈ f.data → False)
    (rest : List Char) (fields : List String) :
    parseRowGo true ('"' :: (f.data ++ '"' :: ',' :: rest)) [] fields =
      parseRowGo true rest [] (fields ++ [f]) := by
  rw [parseRowGo_open, parseRowGo_through f.data hq, parseRowGo_comma]
  simp [mk_data]

/-- The final escaped field closes the row. -/
theorem parseRow_last_field (d : String) (fields : List String) :
    parseRowGo true ('"' :: (escQ d.data ++ ['"'])) [] fields = some (fields ++ [d]) := by
  rw [parseRowGo_open, show escQ d.data ++ ['"'] = escQ d.data ++ '"' :: [] from rfl,
    parseRowGo_esc, parseRowGo_close]
  simp [mk_data]

/-- The character-level shape of one exported covenant row. -/
theorem covenantRow_data (c : Covenant) :
    (covenantRow c).data =
      '"' :: (c.title.data ++ '"' :: ',' ::
        '"' :: (c.type.str.data ++ '"' :: ',' ::
        '"' :: (c.dueDate.data ++ '"' :: ',' ::
        '"' :: (c.status.str.data ++ '"' :: ',' ::
        '"' :: ((orNA c.threshold).data ++ '"' :: ',' ::
        '"' :: ((orNA c.value).data ++ '"' :: ',' ::
        '"' :: (escQ c.description.data ++ ['"']))))))) := by
  simp [covenantRow, quoteF, escapeQuotes, String.data_append, data_dq, List.append_assoc]

/-- Re-parsing one exported covenant row recovers its seven fields. -/
theorem parseRow_covenantRow (c : Covenant)
    (ht : ¬ '"' ∈ c.title.data)
    (hd : ¬ '"' ∈ c.dueDate.data)
    (hth : ¬ '"' ∈ (orNA c.threshold).data)
    (hv : ¬ '"' ∈ (orNA c.value).data) :
    parseRow (covenantRow c).data = some (expectedRow c) := by
  have hty : '"' ∈ c.type.str.data → False := by cases c.type <;> decide
  have hst : '"' ∈ c.status.str.data → False := by cases c.status <;> decide
  rw [parseRow, covenantRow_data]
  rw [parseRow_field c.title ht, parseRow_field c.type.str hty, parseRow_field c.dueDate hd,
    parseRow_field c.status.str hst, parseRow_field (orNA c.threshold) hth,
    parseRow_field (orNA c.value) hv, parseRow_last_field]
  simp [expectedRow]

/-- Appending strings preserves freedom from a character. -/
theorem no_mem_append {ch : Char} (a b : String) (ha : ¬ ch ∈ a.data) (hb : ¬ ch ∈ b.data) :
    ¬ ch ∈ (a ++ b).data := by
  intro h
  rw [String.data_append] at h
  rcases List.mem_append.mp h with h | h
  · exact ha h
  · exact hb h

/-- The quote escape preserves freedom from newlines. -/
theorem escapeQuotes_no_nl (s : String) (hs : ¬ '\n' ∈ s.data) :
    ¬ '\n' ∈ (escapeQuotes s).data := by
  intro h
  rcases escQ_mem _ _ h with h1 | h1
  · exact hs h1
  · simp at h1

/-- A safe covenant's exported row contains no newline. -/
theorem covenantRow_no_nl (c : Covenant) (hsafe : covenantCSVSafe c) :
    ¬ '\n' ∈ (covenantRow c).data := by
  obtain ⟨⟨htq, htn⟩, ⟨hdq, hdn⟩, -, -, ⟨hthq, hthn⟩, -, -, ⟨hvq, hvn⟩, hde⟩ := hsafe
  intro h
  rw [covenantRow_data] at h
  have hty : '\n' ∈ c.type.str.data → False := by cases c.type <;> decide
  have hst : '\n' ∈ c.status.str.data → False := by cases c.status <;> decide
  have h1 : ¬ '\n' = '"' := by decide
  have h2 : ¬ '\n' = ',' := by decide
  have hesc : '\n' ∈ escQ c.description.data → False := fun hm => by
    rcases escQ_mem _ _ hm with hx | hx
    · exact hde hx
    · exact h1 hx
  simp only [List.mem_cons, List.mem_append, List.mem_singleton] at h
  tauto

/-- A covenant row is never the empty line. -/
theorem covenantRow_not_empty (c : Covenant) : ((covenantRow c).data).isEmpty = false := by
  rw [covenantRow_data]
  rfl

/-- All metadata lines of a loan with newline-free scalar fields are
newline-free. -/
theorem metaLines_no_nl (loan : Loan) (g s : String)
    (hg : ¬ '\n' ∈ g.data) (hb : ¬ '\n' ∈ loan.borrower.data)
    (hid : ¬ '\n' ∈ loan.id.data) (hcur : ¬ '\n' ∈ loan.currency.data)
    (hsd : ¬ '\n' ∈ loan.startDate.data) (hmd : ¬ '\n' ∈ loan.maturityDate.data)
    (hsum : ¬ '\n' ∈ s.data) :
    ∀ l ∈ csvMetaLines loan g s, ¬ '\n' ∈ l.data := by
  have hstat : ¬ '\n' ∈ loan.status.str.data := by cases loan.status <;> decide
  intro l hl
  simp only [csvMetaLines, List.mem_cons, List.not_mem_nil, or_false] at hl
  rcases hl with rfl | rfl | rfl | rfl | rfl | rfl | rfl | rfl | rfl | rfl | rfl | rfl |
    rfl | rfl | rfl | rfl | rfl | rfl
  · decide
  · exact no_mem_append _ _ (by decide) hg
  · decide
  · decide
  · exact no_mem_append _ _ (by decide) hb
  · exact no_mem_append _ _ (by decide) hid
  · exact no_mem_append _ _ (no_mem_append _ _ (no_mem_append _ _ (by decide) hcur) (by decide))
      (fun h => natLocaleStr_no_nl _ h)
  · exact no_mem_append _ _ (no_mem_append _ _ (by decide) (fun h => natStr_no_nl _ h)) (by decide)
  · exact no_mem_append _ _ (by decide) hsd
  · exact no_mem_append _ _ (by decide) hmd
  · exact no_mem_append _ _ (by decide) hstat
  · exact no_mem_append _ _ (no_mem_append _ _ (by decide) (fun h => natStr_no_nl _ h)) (by decide)
  · decide
  · decide
  · exact no_mem_append _ _ (no_mem_append _ _ (by decide) (escapeQuotes_no_nl _ hsum)) (by decide)
  · decide
  · decide
  · decide

/-- The prediction section's line decomposition always starts with a
blank line (or is the lone trailing blank when there are no
predictions). -/
theorem splitLines_pred_head (preds : List RiskPrediction) :
    ∃ tail, splitLines ((joinNL (csvPredictionLines preds)).data) = [] :: tail := by
  cases preds with
  | nil => exact ⟨[], rfl⟩
  | cons p ps =>
    refine ⟨splitLines ((joinNL ("RISK PREDICTIONS" ::
      "Covenant,Probability,Trend,Predicted Breach Date,Explanation" ::
      (p :: ps).map predictionRow)).data), ?_⟩
    show splitLines ((joinNL (csvPredictionLines (p :: ps))).data) = _
    rw [show csvPredictionLines (p :: ps) = "" :: "RISK PREDICTIONS" ::
      "Covenant,Probability,Trend,Predicted Breach Date,Explanation" ::
      (p :: ps).map predictionRow from by simp [csvPredictionLines]]
    rw [joinNL]
    rw [show ("" ++ "\n" ++ joinNL ("RISK PREDICTIONS" ::
      "Covenant,Probability,Trend,Predicted Breach Date,Explanation" ::
      (p :: ps).map predictionRow)).data = '\n' :: (joinNL ("RISK PREDICTIONS" ::
      "Covenant,Probability,Trend,Predicted Breach Date,Explanation" ::
      (p :: ps).map predictionRow)).data from by simp [String.data_append, data_nl]]
    rw [splitLines, if_pos rfl]

/-- takeWhile keeps exactly the nonempty rows when a blank line
follows. -/
theorem takeWhile_rows (l1 l2 : List (List Char)) (h1 : ∀ x ∈ l1, x.isEmpty = false)
    (h2 : ∃ tail, l2 = [] :: tail) :
    (l1 ++ l2).takeWhile (fun r => !r.isEmpty) = l1 := by
  obtain ⟨tail, rfl⟩ := h2
  induction l1 with
  | nil => simp [List.takeWhile_cons]
  | cons x l1 ih =>
    simp only [List.cons_append, List.takeWhile_cons, h1 x (List.mem_cons_self _ _),
      Bool.not_false, if_true]
    rw [ih (fun y hy => h1 y (List.mem_cons_of_mem _ hy))]

theorem findTable_cons_ne (l : List Char) (ls : List (List Char))
    (h : l ≠ csvHeaderLine.data) :
    findCovenantTable (l :: ls) = findCovenantTable ls := by
  simp [findCovenantTable, h]

theorem findTable_cons_eq (ls : List (List Char)) :
    findCovenantTable (csvHeaderLine.data :: ls) =
      some (ls.takeWhile (fun r => !r.isEmpty)) := by
  simp [findCovenantTable]

/-- A line not starting with T is not the covenant header line. -/
theorem ne_csvHeader_of_head {l : List Char} {c : Char} (h : l.head? = some c)
    (hc : ¬ c = 'T') : l ≠ csvHeaderLine.data := by
  intro he
  rw [he, show csvHeaderLine.data.head? = some 'T' from rfl] at h
  exact hc (Option.some.inj h).symm

/-- Scanning past the metadata lines lands on the header line and takes
the nonempty rows after it. -/
theorem findTable_meta (loan : Loan) (g s : String) (rest : List (List Char)) :
    findCovenantTable ((csvMetaLines loan g s).map String.data ++ rest) =
      some (rest.takeWhile (fun r => !r.isEmpty)) := by
  simp only [csvMetaLines, List.map_cons, List.map_nil, List.cons_append, List.nil_append]
  rw [findTable_cons_ne _ _ (by decide),
    findTable_cons_ne _ _ (ne_csvHeader_of_head (by rw [String.data_append]; rfl) (by decide)),
    findTable_cons_ne _ _ (by decide),
    findTable_cons_ne _ _ (by decide),
    findTable_cons_ne _ _ (ne_csvHeader_of_head (by rw [String.data_append]; rfl) (by decide)),
    findTable_cons_ne _ _ (ne_csvHeader_of_head (by rw [String.data_append]; rfl) (by decide)),
    findTable_cons_ne _ _ (ne_csvHeader_of_head (by
      rw [String.data_append, String.data_append, String.data_append]; rfl) (by decide)),
    findTable_cons_ne _ _ (ne_csvHeader_of_head (by
      rw [String.data_append, String.data_append]; rfl) (by decide)),
    findTable_cons_ne _ _ (ne_csvHeader_of_head (by rw [String.data_append]; rfl) (by decide)),
    findTable_cons_ne _ _ (ne_csvHeader_of_head (by rw [String.data_append]; rfl) (by decide)),
    findTable_cons_ne _ _ (ne_csvHeader_of_head (by rw [String.data_append]; rfl) (by decide)),
    findTable_cons_ne _ _ (ne_csvHeader_of_head (by
      rw [String.data_append, String.data_append]; rfl) (by decide)),
    findTable_cons_ne _ _ (by decide),
    findTable_cons_ne _ _ (by decide),
    findTable_cons_ne _ _ (ne_csvHeader_of_head (by
      rw [quoteF, String.data_append, String.data_append]; rfl) (by decide)),
    findTable_cons_ne _ _ (by decide),
    findTable_cons_ne _ _ (by decide),
    findTable_cons_eq]

/-- Parsing every exported covenant row recovers every field list. -/
theorem parseRows_covenantRows (covs : List Covenant)
    (h : ∀ c ∈ covs, parseRow (covenantRow c).data = some (expectedRow c)) :
    parseRows (covs.map (fun c => (covenantRow c).data)) = some (covs.map expectedRow) := by
  induction covs with
  | nil => rfl
  | cons c cs ih =>
    simp only [List.map_cons, parseRows, h c (List.mem_cons_self _ _),
      ih (fun x hx => h x (List.mem_cons_of_mem _ hx))]

/-- Safe covenants are reproduced by their expected rows. -/
theorem forall2_expectedRow (covs : List Covenant)
    (h : ∀ c ∈ covs, covenantCSVSafe c) :
    List.Forall₂ rowReproduces covs (covs.map expectedRow) := by
  induction covs with
  | nil => simp
  | cons c cs ih =>
    obtain ⟨-, -, hthn, hthe, -, hvn, hve, -, -⟩ := h c (List.mem_cons_self _ _)
    refine List.Forall₂.cons ?_ (ih (fun x hx => h x (List.mem_cons_of_mem _ hx)))
    obtain ⟨t, ht⟩ := Option.ne_none_iff_exists'.mp hthn
    obtain ⟨v, hv⟩ := Option.ne_none_iff_exists'.mp hvn
    have htne : ¬ t = "" := fun he => hthe (by rw [ht, he])
    have hvne : ¬ v = "" := fun he => hve (by rw [hv, he])
    refine ⟨rfl, rfl, rfl, rfl, ?_, ?_⟩
    · simp [expectedRow, ht, orNA, htne]
    · simp [expectedRow, hv, orNA, hvne]

/-- C5 (amended): the exported covenant table's columns appear in the
order title, type, due date, status, threshold, value, description, and
re-parsing it reproduces title, type, due date, status, threshold and
value of every covenant whose fields are quote- and newline-free and
whose threshold and value are present and non-empty (an absent or empty
threshold or value is exported as the literal N/A, and the exporter does
not escape quotes outside the description); the loan's scalar metadata
fields and the summary must be newline-free for the line structure to
survive. -/
theorem csv_covenant_roundtrip (loan : Loan) (generatedAt summary : String)
    (predictions : List RiskPrediction)
    (hg : ¬ '\n' ∈ generatedAt.data) (hb : ¬ '\n' ∈ loan.borrower.data)
    (hid : ¬ '\n' ∈ loan.id.data) (hcur : ¬ '\n' ∈ loan.currency.data)
    (hsd : ¬ '\n' ∈ loan.startDate.data) (hmd : ¬ '\n' ∈ loan.maturityDate.data)
    (hsum : ¬ '\n' ∈ summary.data)
    (hcovs : ∀ c ∈ loan.covenants, covenantCSVSafe c) :
    csvHeaderLine = "Title,Type,Due Date,Status,Threshold,Current Value,Description" ∧
    parseCovenantTable (generateCSV loan generatedAt summary predictions) =
      some (loan.covenants.map expectedRow) ∧
    List.Forall₂ rowReproduces loan.covenants (loan.covenants.map expectedRow) := by
  refine ⟨rfl, ?_, forall2_expectedRow _ hcovs⟩
  have hnl : ∀ l ∈ csvMetaLines loan generatedAt summary ++ loan.covenants.map covenantRow,
      ¬ '\n' ∈ l.data := by
    intro l hl
    rcases List.mem_append.mp hl with hl | hl
    · exact metaLines_no_nl loan generatedAt summary hg hb hid hcur hsd hmd hsum l hl
    · obtain ⟨c, hc, rfl⟩ := List.mem_map.mp hl
      exact covenantRow_no_nl c (hcovs c hc)
  have hsplit : splitLines ((generateCSV loan generatedAt summary predictions).data) =
      (csvMetaLines loan generatedAt summary ++
          loan.covenants.map covenantRow).map String.data ++
        splitLines ((joinNL (csvPredictionLines predictions)).data) := by
    rw [generateCSV, generateCSVLines, joinNL_append, String.data_append]
    exact splitLines_joinNL_prefix _ _ hnl
  unfold parseCovenantTable
  rw [hsplit, List.map_append, List.append_assoc, findTable_meta,
    takeWhile_rows ((loan.covenants.map covenantRow).map String.data) _
      (fun x hx => by
        obtain ⟨r, hr, rfl⟩ := List.mem_map.mp hx
        obtain ⟨c, hc, rfl⟩ := List.mem_map.mp hr
        exact covenantRow_not_empty c)
      (splitLines_pred_head predictions),
    List.map_map]
  exact parseRows_covenantRows loan.covenants (fun c hc => by
    obtain ⟨⟨htq, -⟩, ⟨hdq, -⟩, -, -, ⟨hthq, -⟩, -, -, ⟨hvq, -⟩, -⟩ := hcovs c hc
    exact parseRow_covenantRow c htq hdq hthq hvq)

/-- C5 witness: the round trip at a concrete safe loan. -/
theorem csv_covenant_roundtrip_witness :
    parseCovenantTable (generateCSV safeLoan "10/12/2026, 10:00:00 AM" "A summary" []) =
      some (safeLoan.covenants.map expectedRow) :=
  (csv_covenant_roundtrip safeLoan "10/12/2026, 10:00:00 AM" "A summary" []
    (by decide) (by decide) (by decide) (by decide) (by decide) (by decide) (by decide)
    (by decide)).2.1

/-- C5 counterexample: a covenant without threshold and value is
exported with the literal N/A in both columns, so re-parsing does not
reproduce its threshold and value. -/
theorem csv_roundtrip_fails_on_missing_threshold :
    parseCovenantTable (generateCSV naLoan "10/12/2026, 10:00:00 AM" "A summary" []) =
      some [["Covenant c1", "Financial", "2026-01-01", "Compliant", "N/A", "N/A",
        "test covenant"]] ∧
    naLoan.covenants = [mkCov "c1" ComplianceStatus.Compliant] ∧
    ¬ rowReproduces (mkCov "c1" ComplianceStatus.Compliant)
      ["Covenant c1", "Financial", "2026-01-01", "Compliant", "N/A", "N/A",
        "test covenant"] := by
  decide

end Theorems

end Coven
